import Mathlib

/-!
Verification of the mangOH SpiService broker: a shallow embedding of the
device-handle registry (`spiServiceComponent/spiService.c`), the legacy
linked-list variant of the same component (`src/unnamed/part_001`), and the
SPI transfer library (`src/unnamed/part_003`), together with theorems that
settle the frozen claims about the natural-language specification.

Modelling conventions:
  * `le_ref` safe references, file descriptors, inodes and session
    references are `Nat`; the registry (`le_ref_MapRef_t`) is an
    association list iterated in list order.
  * The operating-system collaborators (`stat`, `open`, `close`, `ioctl`)
    are oracle parameters: their results are inputs to the embedded
    functions, exactly where the C code reads them.
  * `LE_KILL_CLIENT` does not stop execution of the enclosing function
    (the C code itself adds an explicit `return` where it wants to stop),
    so each embedded operation records a `killed` flag and whatever
    device work the remaining statements perform.
-/

namespace SpiService

/-- The subset of `le_result_t` values this component produces. -/
inductive LeResult where
  | ok
  | badParameter
  | notFound
  | notPermitted
  | duplicate
  | fault
  deriving DecidableEq, Repr

/-- The `errno` values `spi_Open` distinguishes after a failed `stat`/`open`. -/
inductive Errno where
  | enoent
  | eacces
  | other
  deriving DecidableEq, Repr

/-- The errno-to-result mapping both failure branches of `spi_Open` use. -/
def mapErrno : Errno → LeResult
  | .enoent => .notFound
  | .eacces => .notPermitted
  | .other => .fault

/-- `Device_t` of `spiService.c`: descriptor, stat-derived inode, owner. -/
structure Device where
  fd : Nat
  inode : Nat
  owningSession : Nat
  deriving DecidableEq, Repr

/-- The registry `g.deviceHandleRefMap`: safe reference to device object. -/
abbrev Registry := List (Nat × Device)

/-- `le_ref_Lookup`: the device a safe reference maps to, if any. -/
def le_ref_Lookup (reg : Registry) (ref : Nat) : Option Device :=
  match reg with
  | [] => none
  | (r, d) :: rest => if r = ref then some d else le_ref_Lookup rest ref

/-- `le_ref_DeleteRef`: remove the (unique) node holding the reference. -/
def le_ref_DeleteRef (reg : Registry) (ref : Nat) : Registry :=
  match reg with
  | [] => []
  | (r, d) :: rest => if r = ref then rest else (r, d) :: le_ref_DeleteRef rest ref

/-- `findDeviceWithInode` of `spiService.c`: iterate the registry and return
the first device whose stored inode equals the argument. -/
def findDeviceWithInode (reg : Registry) (inode : Nat) : Option Device :=
  match reg with
  | [] => none
  | (_, d) :: rest => if d.inode = inode then some d else findDeviceWithInode rest inode

/-- What `stat` reports about the resolved device path: the identity fields
`st_dev` and `st_ino`.  `spiService.c` captures only `st_ino`. -/
structure StatInfo where
  stDev : Nat
  stIno : Nat
  deriving DecidableEq, Repr

/-- Outcome of a system call: a value, or a failure with an errno. -/
inductive SysCall (α : Type) where
  | success (val : α)
  | failure (e : Errno)
  deriving DecidableEq, Repr

/-- The environment one `spi_Open` call runs in: the results the OS would
give for `stat` and `open` on the resolved path, the calling session
(`spi_GetClientSessionRef`), and the safe reference `le_ref_CreateRef`
would mint. -/
structure OpenEnv where
  statResult : SysCall StatInfo
  openResult : SysCall Nat
  caller : Nat
  newRef : Nat
  deriving DecidableEq, Repr

/-- Everything one `spi_Open` call leaves behind: the returned
`le_result_t`, the out-parameter `*handle`, the registry, and whether a
device object was allocated. -/
structure OpenOutcome where
  result : LeResult
  handleOut : Option Nat
  registry : Registry
  allocated : Bool
  deriving DecidableEq, Repr

/-- `spi_Open` of `spiService.c`.  The path is `"/dev/%s"`, so the
`snprintf` result is `5 + deviceName.length`; the buffer holds 256 bytes,
so a result above 255 is rejected as `LE_BAD_PARAMETER` and a negative one
as `LE_FAULT`.  Then `stat`, the duplicate scan by inode, `open`, and on
success allocation and insertion of the new device. -/
def spi_Open (env : OpenEnv) (deviceName : String) (reg : Registry) : OpenOutcome :=
  let handle : Option Nat := none
  let snprintfResult : Int := 5 + (deviceName.length : Int)
  if snprintfResult > 255 then
    { result := .badParameter, handleOut := handle, registry := reg, allocated := false }
  else if snprintfResult < 0 then
    { result := .fault, handleOut := handle, registry := reg, allocated := false }
  else
    match env.statResult with
    | .failure e =>
      { result := mapErrno e, handleOut := handle, registry := reg, allocated := false }
    | .success info =>
      match findDeviceWithInode reg info.stIno with
      | some _ =>
        { result := .duplicate, handleOut := handle, registry := reg, allocated := false }
      | none =>
        match env.openResult with
        | .failure e =>
          { result := mapErrno e, handleOut := handle, registry := reg, allocated := false }
        | .success fd =>
          { result := .ok
            handleOut := some env.newRef
            registry := (env.newRef, { fd := fd, inode := info.stIno, owningSession := env.caller }) :: reg
            allocated := true }

/-- Everything one `spi_Close` call leaves behind: whether the caller was
killed, the registry, the descriptor passed to `close` (if any), whether
the device object was released, and whether the failed-`close` warning was
logged. -/
structure CloseOutcome where
  killed : Bool
  registry : Registry
  fdClosed : Option Nat
  freed : Bool
  warned : Bool
  deriving DecidableEq, Repr

/-- `spi_Close` of `spiService.c`: look the handle up (kill and return on
failure), check ownership (kill and return on failure), then delete the
reference, `close` the descriptor — `closeResult` is what `close` returns;
a nonzero value is only logged — and release the object. -/
def spi_Close (reg : Registry) (handle caller : Nat) (closeResult : Int) : CloseOutcome :=
  match le_ref_Lookup reg handle with
  | none =>
    { killed := true, registry := reg, fdClosed := none, freed := false, warned := false }
  | some device =>
    if device.owningSession ≠ caller then
      { killed := true, registry := reg, fdClosed := none, freed := false, warned := false }
    else
      { killed := false
        registry := le_ref_DeleteRef reg handle
        fdClosed := some device.fd
        freed := true
        warned := closeResult ≠ 0 }

/-- Everything one `spi_Configure` call does: whether the caller was killed
and whether `spiLib_Configure` was invoked on the descriptor. -/
structure ConfigureOutcome where
  killed : Bool
  configurePerformed : Bool
  deriving DecidableEq, Repr

/-- `spi_Configure` of `spiService.c`: lookup failure kills and returns, but
the ownership branch calls `LE_KILL_CLIENT` without a `return`, so execution
falls through to `spiLib_Configure(device->fd, ...)` either way. -/
def spi_Configure (reg : Registry) (handle caller : Nat) : ConfigureOutcome :=
  match le_ref_Lookup reg handle with
  | none => { killed := true, configurePerformed := false }
  | some device =>
    { killed := device.owningSession ≠ caller, configurePerformed := true }

/-- Everything one guarded half-duplex transfer call does. -/
structure TransferOutcome where
  killed : Bool
  transferIssued : Bool
  result : LeResult
  deriving DecidableEq, Repr

/-- `spi_Write_Hd` of `spiService.c`: lookup failure kills and returns
`LE_FAULT`; the ownership branch kills without a `return`, so the
`spiLib_Write_Hd` transfer is issued either way, and its result
(`libResult`) is folded to `LE_OK`/`LE_FAULT`. -/
def spi_Write_Hd (reg : Registry) (handle caller : Nat) (libResult : LeResult) : TransferOutcome :=
  match le_ref_Lookup reg handle with
  | none => { killed := true, transferIssued := false, result := .fault }
  | some device =>
    { killed := device.owningSession ≠ caller
      transferIssued := true
      result := if libResult = .ok then .ok else .fault }

/-- `spi_Read_Hd` of `spiService.c`: same shape as `spi_Write_Hd`, including
the missing `return` in the ownership branch. -/
def spi_Read_Hd (reg : Registry) (handle caller : Nat) (libResult : LeResult) : TransferOutcome :=
  match le_ref_Lookup reg handle with
  | none => { killed := true, transferIssued := false, result := .fault }
  | some device =>
    { killed := device.owningSession ≠ caller
      transferIssued := true
      result := if libResult = .ok then .ok else .fault }

/-- `spi_WriteRead_Hd` of `spiService.c`: here both guard branches do
`return LE_FAULT` after `LE_KILL_CLIENT`, so no transfer is issued for an
unknown or foreign handle. -/
def spi_WriteRead_Hd (reg : Registry) (handle caller : Nat) (libResult : LeResult) :
    TransferOutcome :=
  match le_ref_Lookup reg handle with
  | none => { killed := true, transferIssued := false, result := .fault }
  | some device =>
    if device.owningSession ≠ caller then
      { killed := true, transferIssued := false, result := .fault }
    else
      { killed := false
        transferIssued := true
        result := if libResult = .ok then .ok else .fault }

/-- Everything one `spi_WriteRead_Fd` call does; `transferLength` is the
`writeDataLength` handed to `spiLib_WriteRead_Fd` when a transfer is issued. -/
structure FdTransferOutcome where
  killed : Bool
  transferIssued : Bool
  transferLength : Option Nat
  result : LeResult
  deriving DecidableEq, Repr

/-- `spi_WriteRead_Fd` of `spiService.c`: unknown handle and foreign handle
kill and `return LE_FAULT`; the buffer-size guard
`*readDataLength < writeDataLength` calls `LE_KILL_CLIENT` without a
`return`, so the full-duplex transfer is issued (over `writeDataLength`
cycles) even on a violated precondition. -/
def spi_WriteRead_Fd (reg : Registry) (handle caller : Nat)
    (writeDataLength readDataLength : Nat) (libResult : LeResult) : FdTransferOutcome :=
  match le_ref_Lookup reg handle with
  | none => { killed := true, transferIssued := false, transferLength := none, result := .fault }
  | some device =>
    if device.owningSession ≠ caller then
      { killed := true, transferIssued := false, transferLength := none, result := .fault }
    else
      { killed := decide (readDataLength < writeDataLength)
        transferIssued := true
        transferLength := some writeDataLength
        result := if libResult = .ok then .ok else .fault }

/-- The loop of `closeAllHandlesOwnedByClient` in `spiService.c`: walk the
iteration sequence, remember the safe reference of an owned node, advance
the iterator, then call `spi_Close` on the remembered reference.  The
iteration sequence is the registry as it stood when the iterator was
created; closing only ever removes the node already advanced past, so the
remaining sequence stays valid.  Inside the disconnect handler the calling
session is the disconnecting session, so `spi_Close` runs as `owner`. -/
def closeAllLoop (owner : Nat) : List (Nat × Device) → Registry → Registry
  | [], reg => reg
  | (ref, device) :: rest, reg =>
    let toClose : Option Nat := if device.owningSession = owner then some ref else none
    match toClose with
    | some r => closeAllLoop owner rest (spi_Close reg r owner 0).registry
    | none => closeAllLoop owner rest reg

/-- `closeAllHandlesOwnedByClient` of `spiService.c`. -/
def closeAllHandlesOwnedByClient (owner : Nat) (reg : Registry) : Registry :=
  closeAllLoop owner reg reg

/-- `spi_DeviceHandle_t` of the legacy component `src/unnamed/part_001`:
the handle itself is the list node; `id` stands for the node's address. -/
structure HandleV1 where
  id : Nat
  fd : Nat
  inode : Nat
  owningSession : Nat
  deriving DecidableEq, Repr

/-- The legacy component's `g.deviceHandles` doubly-linked list. -/
abbrev HandleListV1 := List HandleV1

/-- `le_dls_Remove` in the legacy component: unlink the given node. -/
def removeHandleV1 (handles : HandleListV1) (h : HandleV1) : HandleListV1 :=
  match handles with
  | [] => []
  | x :: rest => if x.id = h.id then rest else x :: removeHandleV1 rest h

/-- The effect of the legacy `spi_Close` on the list when invoked from the
cleanup loop: the handle is present and owned by the disconnecting session,
so the guards pass and the node is unlinked, closed and freed. -/
def spi_CloseV1 (handles : HandleListV1) (h : HandleV1) : HandleListV1 :=
  removeHandleV1 handles h

/-- The inner `while` of the legacy `closeAllHandlesOwnedByClient`: scan the
live list from the head; on the first handle owned by `owner`, close it,
set `handleFound` and break. -/
def closeAllV1Pass (owner : Nat) (handles : HandleListV1) : HandleListV1 × Bool :=
  match handles with
  | [] => (handles, false)
  | h :: rest =>
    if h.owningSession = owner then (spi_CloseV1 handles h, true)
    else
      match closeAllV1Pass owner rest with
      | (tail, found) => (h :: tail, found)

/-- The outer `do ... while (handleFound)` of the legacy cleanup.  After the
inner loop the code executes `handleFound = false;` unconditionally, so the
loop condition reads that overwritten value: the body runs exactly once no
matter what the scan found.  The fuel bound mirrors how often the loop
could at most run if the flag were consulted. -/
def closeAllV1Fuel : Nat → Nat → HandleListV1 → HandleListV1
  | 0, _, handles => handles
  | Nat.succ fuel, owner, handles =>
    let pass := closeAllV1Pass owner handles
    let handleFound := false
    if handleFound then closeAllV1Fuel fuel owner pass.1 else pass.1

/-- `closeAllHandlesOwnedByClient` of the legacy component
`src/unnamed/part_001`. -/
def closeAllHandlesOwnedByClientV1 (owner : Nat) (handles : HandleListV1) : HandleListV1 :=
  closeAllV1Fuel (handles.length + 1) owner handles

/-- One `struct spi_ioc_transfer` segment as the library fills it: the
transmit buffer (or NULL), whether a receive buffer is attached, the
segment length, and the `cs_change` flag. -/
structure SpiIocTransfer where
  txBuf : Option (List Nat)
  rxBufSet : Bool
  len : Nat
  csChange : Nat
  deriving DecidableEq, Repr

/-- The value an `int` holds after assignment to the library's `int8_t`
locals: two's-complement truncation to 8 bits. -/
def int8Trunc (n : Int) : Int :=
  let m := n % 256
  if m ≥ 128 then m - 256 else m

/-- `spiLib_WriteRead` of `src/unnamed/part_003`: one ioctl message of two
back-to-back segments — segment 0 transmits `writeData` with `rx_buf`
NULL, segment 1 receives `readDataLength` bytes with `tx_buf` NULL — and
the ioctl return value, stored into an `int8_t`, is folded to
`LE_FAULT` when `< 1` and `LE_OK` otherwise. -/
def spiLib_WriteRead (writeData : List Nat) (readDataLength : Nat) (ioctlReturn : Int) :
    List SpiIocTransfer × LeResult :=
  let tr0 : SpiIocTransfer :=
    { txBuf := some writeData, rxBufSet := false, len := writeData.length, csChange := 0 }
  let tr1 : SpiIocTransfer :=
    { txBuf := none, rxBufSet := true, len := readDataLength, csChange := 0 }
  let transferResult : Int := int8Trunc ioctlReturn
  ([tr0, tr1], if transferResult < 1 then .fault else .ok)

/-- `spiLib_Write` of `src/unnamed/part_003`: a single transmit-only
segment, with the same `int8_t` result folding as `spiLib_WriteRead`. -/
def spiLib_Write (writeData : List Nat) (ioctlReturn : Int) :
    List SpiIocTransfer × LeResult :=
  let tr0 : SpiIocTransfer :=
    { txBuf := some writeData, rxBufSet := false, len := writeData.length, csChange := 0 }
  let transferResult : Int := int8Trunc ioctlReturn
  ([tr0], if transferResult < 1 then .fault else .ok)

/-- Modelled from the spec: `spiLib_Read_Hd` is declared in `spiLibrary.h`
and called by `spi_Read_Hd`, but its implementation is not among the
repository's files.  The spec says it "issues a single receive-only
transfer filling len(readBuffer) bytes" and maps "a negative or zero
low-level transfer-count result to Fault". -/
def spiLib_Read_Hd_model (readDataLength : Nat) (transferCount : Int) :
    List SpiIocTransfer × LeResult :=
  ([{ txBuf := none, rxBufSet := true, len := readDataLength, csChange := 0 }],
    if transferCount ≤ 0 then .fault else .ok)

/-- Modelled from the spec: `spiLib_WriteRead_Fd` is declared in
`spiLibrary.h` and called by `spi_WriteRead_Fd`, but its implementation is
not among the repository's files.  The spec says it "issues a single
transfer where transmit and receive occur on the same clock cycles",
operating "over len(writeBuffer) cycles", and maps "a negative or zero
low-level transfer-count result to Fault". -/
def spiLib_WriteRead_Fd_model (writeData : List Nat) (transferCount : Int) :
    List SpiIocTransfer × LeResult :=
  ([{ txBuf := some writeData, rxBufSet := true, len := writeData.length, csChange := 0 }],
    if transferCount ≤ 0 then .fault else .ok)

/-- The SPI controller state behind the `spidev` ioctl interface: the four
configurable bus parameters. -/
structure SpiDevState where
  mode : Int
  bits : Nat
  speed : Nat
  lsb : Int
  deriving DecidableEq, Repr

/-- What `spiLib_Configure` ends in: `LE_FATAL_IF` aborts the whole process
at the first failing ioctl (`fatal i` for the i-th of the eight calls), or
the function returns with the device state and the values the four
read-back ioctls left in the local variables. -/
inductive ConfigureResult where
  | fatal (step : Nat)
  | done (dev : SpiDevState) (modeRead : Int) (bitsRead : Nat) (speedRead : Nat) (msbRead : Int)
  deriving DecidableEq, Repr

/-- `spiLib_Configure` of `src/unnamed/part_003`: eight ioctls in order —
write mode, read mode, write bits-per-word, read bits-per-word, write max
speed, read max speed, write LSB-first flag, read LSB-first flag — where
each write stores its parameter in the device, each read overwrites the
local variable with the device's value, and any negative ioctl return is
fatal to the process.  `ioctlRet i` is the return value of the i-th ioctl
on a given run. -/
def spiLib_Configure (dev : SpiDevState) (mode : Int) (bits : Nat) (speed : Nat) (msb : Int)
    (ioctlRet : Nat → Int) : ConfigureResult :=
  if ioctlRet 0 < 0 then .fatal 0 else
  let dev := { dev with mode := mode }
  if ioctlRet 1 < 0 then .fatal 1 else
  let mode := dev.mode
  if ioctlRet 2 < 0 then .fatal 2 else
  let dev := { dev with bits := bits }
  if ioctlRet 3 < 0 then .fatal 3 else
  let bits := dev.bits
  if ioctlRet 4 < 0 then .fatal 4 else
  let dev := { dev with speed := speed }
  if ioctlRet 5 < 0 then .fatal 5 else
  let speed := dev.speed
  if ioctlRet 6 < 0 then .fatal 6 else
  let dev := { dev with lsb := msb }
  if ioctlRet 7 < 0 then .fatal 7 else
  let msb := dev.lsb
  .done dev mode bits speed msb

/-! ## Helper lemmas about the registry primitives -/

/-- The duplicate scan misses exactly when no live device holds the inode. -/
theorem findDeviceWithInode_eq_none_iff (reg : Registry) (inode : Nat) :
    findDeviceWithInode reg inode = none ↔ ∀ p ∈ reg, p.2.inode ≠ inode := by
  induction reg with
  | nil => simp [findDeviceWithInode]
  | cons head tail ih =>
    obtain ⟨r, d⟩ := head
    by_cases h : d.inode = inode
    · simp [findDeviceWithInode, h]
    · simp [findDeviceWithInode, h, ih]

/-- Deleting a reference yields a sublist of the registry. -/
theorem le_ref_DeleteRef_sublist (reg : Registry) (ref : Nat) :
    (le_ref_DeleteRef reg ref).Sublist reg := by
  induction reg with
  | nil => simp [le_ref_DeleteRef]
  | cons head tail ih =>
    obtain ⟨r, d⟩ := head
    by_cases h : r = ref
    · simp [le_ref_DeleteRef, h, List.sublist_cons_self]
    · simpa [le_ref_DeleteRef, h] using ih.cons₂ (r, d)

/-- With distinct reference keys, lookup of a present entry finds it. -/
theorem le_ref_Lookup_eq_some_of_mem (reg : Registry) (ref : Nat) (d : Device)
    (hmem : (ref, d) ∈ reg) (hnd : (reg.map Prod.fst).Nodup) :
    le_ref_Lookup reg ref = some d := by
  induction reg with
  | nil => cases hmem
  | cons head tail ih =>
    obtain ⟨r, e⟩ := head
    simp only [List.map_cons, List.nodup_cons] at hnd
    rcases List.mem_cons.mp hmem with hEq | hTail
    · cases hEq
      simp [le_ref_Lookup]
    · have hne : r ≠ ref := by
        intro hr
        exact hnd.1 (hr ▸ List.mem_map_of_mem Prod.fst hTail)
      simp [le_ref_Lookup, hne, ih hTail hnd.2]

/-- With distinct reference keys, two entries sharing a key are one entry. -/
theorem mem_eq_of_same_key (reg : Registry) (ref : Nat) (d e : Device)
    (hd : (ref, d) ∈ reg) (he : (ref, e) ∈ reg) (hnd : (reg.map Prod.fst).Nodup) :
    d = e := by
  have h1 := le_ref_Lookup_eq_some_of_mem reg ref d hd hnd
  have h2 := le_ref_Lookup_eq_some_of_mem reg ref e he hnd
  rw [h1] at h2
  exact Option.some_inj.mp h2

/-- Deleting a key a cons-sublist starts with keeps the tail a sublist. -/
theorem sublist_deleteRef (reg rest : Registry) (ref : Nat) (d : Device)
    (h : ((ref, d) :: rest).Sublist reg) (hnd : (reg.map Prod.fst).Nodup) :
    rest.Sublist (le_ref_DeleteRef reg ref) := by
  induction reg with
  | nil => cases h
  | cons head tail ih =>
    obtain ⟨r, e⟩ := head
    simp only [List.map_cons, List.nodup_cons] at hnd
    cases h with
    | cons _ htail =>
      have hne : r ≠ ref := by
        intro hr
        have : (ref, d) ∈ tail := htail.subset (List.mem_cons_self _ _)
        exact hnd.1 (hr ▸ List.mem_map_of_mem Prod.fst this)
      simpa [le_ref_DeleteRef, hne] using (ih htail hnd.2).cons (r, e)
    | cons₂ _ htail =>
      simpa [le_ref_DeleteRef] using htail

/-- Case characterization of `spi_Open`: the `snprintf` result is
`5 + deviceName.length`, so it is never negative (that fault branch is
dead) and the length guard fires exactly for names longer than 250
bytes. -/
theorem spi_Open_eq (env : OpenEnv) (deviceName : String) (reg : Registry) :
    spi_Open env deviceName reg =
      if 250 < deviceName.length then
        { result := .badParameter, handleOut := none, registry := reg, allocated := false }
      else
        match env.statResult with
        | .failure e =>
          { result := mapErrno e, handleOut := none, registry := reg, allocated := false }
        | .success info =>
          match findDeviceWithInode reg info.stIno with
          | some _ =>
            { result := .duplicate, handleOut := none, registry := reg, allocated := false }
          | none =>
            match env.openResult with
            | .failure e =>
              { result := mapErrno e, handleOut := none, registry := reg, allocated := false }
            | .success fd =>
              { result := .ok
                handleOut := some env.newRef
                registry :=
                  (env.newRef, { fd := fd, inode := info.stIno, owningSession := env.caller }) :: reg
                allocated := true } := by
  unfold spi_Open
  have hge : ¬ ((5 : Int) + (deviceName.length : Int) < 0) := by omega
  by_cases hlen : 250 < deviceName.length
  · have : (5 : Int) + (deviceName.length : Int) > 255 := by omega
    simp [this, hlen]
  · have : ¬ ((5 : Int) + (deviceName.length : Int) > 255) := by omega
    simp [this, hge, hlen]

/-- The registry identity invariant as the code maintains it: the stored
inodes of distinct live handles differ pairwise. -/
def RegistryInodesDistinct (reg : Registry) : Prop :=
  reg.Pairwise (fun a b => a.2.inode ≠ b.2.inode)

/-! ## C1: registry mutual exclusion and the duplicate check key -/

/-- Environment of the first open in the duplicate-key counterexample: the
resolved path stats to identity (device 1, inode 5) and opens as fd 3. -/
def dupEnvA : OpenEnv :=
  { statResult := .success { stDev := 1, stIno := 5 }
    openResult := .success 3
    caller := 1
    newRef := 10 }

/-- Environment of the second open: a path on a different device whose stat
identity is (device 2, inode 5) — same inode, different device. -/
def dupEnvB : OpenEnv :=
  { statResult := .success { stDev := 2, stIno := 5 }
    openResult := .success 4
    caller := 2
    newRef := 11 }

/-- C1 counterexample.  A first open captures stat identity
(device 1, inode 5); a second open whose resolved path stats to
(device 2, inode 5) — a different (device, inode) pair, so by the claim no
live handle has the second path's identity — nevertheless returns
`LE_DUPLICATE`, because `Device_t` stores and `findDeviceWithInode`
compares only `st_ino`; `st_dev` is dropped.  So "Open returns Duplicate
exactly when a live handle whose identity equals the stat-derived
(device, inode) pair of the resolved path already exists" is false of the
code. -/
theorem open_duplicate_devid_counterexample :
    (spi_Open dupEnvA "spidev0.0" []).result = .ok
  ∧ (spi_Open dupEnvB "spidev1.0" (spi_Open dupEnvA "spidev0.0" []).registry).result = .duplicate
  ∧ dupEnvA.statResult = .success { stDev := 1, stIno := 5 }
  ∧ dupEnvB.statResult = .success { stDev := 2, stIno := 5 }
  ∧ ({ stDev := 1, stIno := 5 } : StatInfo) ≠ { stDev := 2, stIno := 5 }
  ∧ (spi_Open dupEnvA "spidev0.0" []).registry
      = [(10, { fd := 3, inode := 5, owningSession := 1 })] := by
  decide

/-- C1 as amended: the identity key of the registry is the stat-derived
inode alone.  (1) `spi_Open` returns `LE_DUPLICATE` exactly when the name
passes the length check, `stat` succeeds, and a live handle already holds
the stat-derived inode; (2) pairwise-distinct inodes are preserved by
`spi_Open`; (3) and by `spi_Close`; (4) a non-`LE_OK` open inserts
nothing. -/
theorem open_duplicate_inode_key_amended (env : OpenEnv) (deviceName : String) (reg : Registry) :
    ((spi_Open env deviceName reg).result = .duplicate
      ↔ deviceName.length ≤ 250
        ∧ ∃ info, env.statResult = .success info ∧ findDeviceWithInode reg info.stIno ≠ none)
  ∧ (RegistryInodesDistinct reg → RegistryInodesDistinct (spi_Open env deviceName reg).registry)
  ∧ (∀ handle caller closeResult, RegistryInodesDistinct reg →
      RegistryInodesDistinct (spi_Close reg handle caller closeResult).registry)
  ∧ ((spi_Open env deviceName reg).result ≠ .ok →
      (spi_Open env deviceName reg).registry = reg) := by
  refine ⟨?_, ?_, ?_, ?_⟩
  · rw [spi_Open_eq]
    by_cases hlen : 250 < deviceName.length
    · have h1 : ¬ deviceName.length ≤ 250 := by omega
      simp [hlen, h1]
    · have h1 : deviceName.length ≤ 250 := by omega
      rcases hstat : env.statResult with info | e
      · rcases hfind : findDeviceWithInode reg info.stIno with _ | d
        · rcases hopen : env.openResult with fd | e
          · simp [hlen, h1, hstat, hfind, hopen]
          · simp only [hlen, if_false, hstat, hfind, hopen]
            cases e <;> simp [mapErrno, hfind]
        · simp [hlen, h1, hstat, hfind]
      · simp only [hlen, if_false, hstat]
        cases e <;> simp [mapErrno]
  · intro hinv
    rw [spi_Open_eq]
    by_cases hlen : 250 < deviceName.length
    · simpa [hlen] using hinv
    · rcases hstat : env.statResult with info | e
      · rcases hfind : findDeviceWithInode reg info.stIno with _ | d
        · rcases hopen : env.openResult with fd | e
          · simp only [hlen, if_false, hstat, hfind, hopen]
            have hnone := (findDeviceWithInode_eq_none_iff reg info.stIno).mp hfind
            unfold RegistryInodesDistinct at hinv ⊢
            refine List.pairwise_cons.mpr ⟨?_, hinv⟩
            intro p hp
            exact fun hEq => hnone p hp hEq.symm
          · simpa [hlen, hstat, hfind, hopen] using hinv
        · simpa [hlen, hstat, hfind] using hinv
      · simpa [hlen, hstat] using hinv
  · intro handle caller closeResult hinv
    unfold spi_Close
    rcases hlook : le_ref_Lookup reg handle with _ | device
    · simpa using hinv
    · by_cases hown : device.owningSession ≠ caller
      · simpa [hown] using hinv
      · simp only [hown, if_false]
        exact List.Pairwise.sublist (le_ref_DeleteRef_sublist reg handle) hinv
  · intro hres
    rw [spi_Open_eq] at hres ⊢
    by_cases hlen : 250 < deviceName.length
    · simp [hlen]
    · rcases hstat : env.statResult with info | e
      · rcases hfind : findDeviceWithInode reg info.stIno with _ | d
        · rcases hopen : env.openResult with fd | e
          · simp [hlen, hstat, hfind, hopen] at hres
          · simp [hlen, hstat, hfind, hopen]
        · simp [hlen, hstat, hfind]
      · simp [hlen, hstat]

/-- C1 witness: the invariant-preservation conjunct applied to the concrete
first open of the counterexample scenario, hypotheses discharged. -/
theorem open_duplicate_inode_key_witness :
    RegistryInodesDistinct ((spi_Open dupEnvA "spidev0.0" []).registry) :=
  (open_duplicate_inode_key_amended dupEnvA "spidev0.0" []).2.1
    (by simp [RegistryInodesDistinct])

/-! ## C6: open error classification; C10: open atomicity on failure -/

/-- Environment for the traversal counterexample: `/dev/..` exists (it
stats as a directory, identity (1, 2)) but `open(..., O_RDWR)` on a
directory fails with an errno that is neither ENOENT nor EACCES. -/
def traversalEnv : OpenEnv :=
  { statResult := .success { stDev := 1, stIno := 2 }
    openResult := .failure .other
    caller := 1
    newRef := 10 }

/-- C6 counterexample.  The device name `".."` is a path-traversal segment
escaping the single-level namespace, yet `spi_Open` does not return
`LE_BAD_PARAMETER` for it: the only name validation is the length check,
so the call proceeds to `stat`/`open` on `"/dev/.."` and the result is
whatever the filesystem gives (here `LE_FAULT`). -/
theorem open_traversal_not_badparameter :
    (spi_Open traversalEnv ".." []).result = .fault
  ∧ LeResult.fault ≠ LeResult.badParameter
  ∧ "..".length ≤ 250 := by
  decide

/-- C6 as amended: `spi_Open` returns `LE_BAD_PARAMETER` exactly when the
resolved path overflows the 256-byte buffer (device name longer than 250
bytes); the name is not otherwise validated.  A failed `stat` maps
ENOENT to `LE_NOT_FOUND`, EACCES to `LE_NOT_PERMITTED` and anything else
to `LE_FAULT`, and a failed `open` is mapped the same way. -/
theorem open_error_classification_amended (env : OpenEnv) (deviceName : String) (reg : Registry) :
    ((spi_Open env deviceName reg).result = .badParameter ↔ 250 < deviceName.length)
  ∧ (∀ e, deviceName.length ≤ 250 → env.statResult = .failure e →
      (spi_Open env deviceName reg).result = mapErrno e)
  ∧ (∀ info e, deviceName.length ≤ 250 → env.statResult = .success info →
      findDeviceWithInode reg info.stIno = none → env.openResult = .failure e →
      (spi_Open env deviceName reg).result = mapErrno e)
  ∧ mapErrno .enoent = .notFound
  ∧ mapErrno .eacces = .notPermitted
  ∧ mapErrno .other = .fault := by
  refine ⟨?_, ?_, ?_, rfl, rfl, rfl⟩
  · rw [spi_Open_eq]
    by_cases hlen : 250 < deviceName.length
    · simp [hlen]
    · rcases hstat : env.statResult with info | e
      · rcases hfind : findDeviceWithInode reg info.stIno with _ | d
        · rcases hopen : env.openResult with fd | e
          · simp [hlen, hstat, hfind, hopen]
          · simp only [hlen, if_false, hstat, hfind, hopen]
            cases e <;> simp [mapErrno, hlen]
        · simp [hlen, hstat, hfind]
      · simp only [hlen, if_false, hstat]
        cases e <;> simp [mapErrno, hlen]
  · intro e hlen hstat
    have h1 : ¬ 250 < deviceName.length := by omega
    rw [spi_Open_eq]
    simp [h1, hstat]
  · intro info e hlen hstat hfind hopen
    have h1 : ¬ 250 < deviceName.length := by omega
    rw [spi_Open_eq]
    simp [h1, hstat, hfind, hopen]

/-- Environment in which `stat` itself fails with ENOENT. -/
def noentEnv : OpenEnv :=
  { statResult := .failure .enoent
    openResult := .failure .enoent
    caller := 1
    newRef := 10 }

/-- C6 witness: the stat-failure conjunct applied at a concrete call whose
`stat` fails with ENOENT, hypotheses discharged. -/
theorem open_error_classification_witness :
    (spi_Open noentEnv "spidev0.0" []).result = mapErrno .enoent :=
  (open_error_classification_amended noentEnv "spidev0.0" []).2.1 .enoent
    (by decide) (by decide)

/-- C10: `spi_Open` is atomic on failure.  `*handle` is NULLed on entry and
only assigned on the success path, so any non-`LE_OK` outcome leaves the
out-parameter NULL, the registry unchanged, and no device object
allocated; conversely the out-parameter is non-NULL exactly on
`LE_OK`. -/
theorem open_atomic_on_failure (env : OpenEnv) (deviceName : String) (reg : Registry) :
    ((spi_Open env deviceName reg).result ≠ .ok →
        (spi_Open env deviceName reg).handleOut = none
      ∧ (spi_Open env deviceName reg).registry = reg
      ∧ (spi_Open env deviceName reg).allocated = false)
  ∧ ((spi_Open env deviceName reg).result = .ok ↔
      (spi_Open env deviceName reg).handleOut ≠ none) := by
  rw [spi_Open_eq]
  by_cases hlen : 250 < deviceName.length
  · simp [hlen]
  · rcases hstat : env.statResult with info | e
    · rcases hfind : findDeviceWithInode reg info.stIno with _ | d
      · rcases hopen : env.openResult with fd | e
        · simp [hlen, hstat, hfind, hopen]
        · simp only [hlen, if_false, hstat, hfind, hopen]
          cases e <;> simp [mapErrno]
      · simp [hlen, hstat, hfind]
    · simp only [hlen, if_false, hstat]
      cases e <;> simp [mapErrno]

/-- C10 witness: the failure conjunct applied at a concrete call whose
`stat` fails, hypotheses discharged. -/
theorem open_atomic_on_failure_witness :
    (spi_Open noentEnv "spidev0.0" []).handleOut = none
  ∧ (spi_Open noentEnv "spidev0.0" []).registry = []
  ∧ (spi_Open noentEnv "spidev0.0" []).allocated = false :=
  (open_atomic_on_failure noentEnv "spidev0.0" []).1 (by decide)

/-! ## C2: disconnect cleanup -/

/-- Filtering is unchanged by dropping a key no registry entry holds. -/
theorem filter_key_absent (reg : Registry) (ref owner : Nat) (ks : List Nat)
    (habs : ref ∉ reg.map Prod.fst) :
    reg.filter (fun p => !((ref :: ks).contains p.1 && p.2.owningSession == owner))
      = reg.filter (fun p => !(ks.contains p.1 && p.2.owningSession == owner)) := by
  refine List.filter_congr ?_
  intro p hp
  have hne : p.1 ≠ ref := by
    intro hEq
    exact habs (hEq ▸ List.mem_map_of_mem Prod.fst hp)
  simp [List.contains_cons, hne]

/-- Filtering is unchanged by dropping the key of an entry the owner
predicate already rejects. -/
theorem filter_key_foreign (reg : Registry) (ref owner : Nat) (ks : List Nat) (d : Device)
    (hmem : (ref, d) ∈ reg) (hnd : (reg.map Prod.fst).Nodup)
    (hown : d.owningSession ≠ owner) :
    reg.filter (fun p => !((ref :: ks).contains p.1 && p.2.owningSession == owner))
      = reg.filter (fun p => !(ks.contains p.1 && p.2.owningSession == owner)) := by
  refine List.filter_congr ?_
  intro p hp
  by_cases hk : p.1 = ref
  · have hpd : p.2 = d := by
      have : (ref, p.2) ∈ reg := by
        have hp2 : p = (ref, p.2) := by
          cases p
          simp_all
        exact hp2 ▸ hp
      exact mem_eq_of_same_key reg ref p.2 d this hmem hnd
    have : ¬ (p.2.owningSession == owner) = true := by
      simp [hpd, hown]
    simp [this]
  · simp [List.contains_cons, hk]

/-- Removing an owned entry from the registry commutes with filtering away
its key from the exclusion set. -/
theorem filter_key_owned (reg : Registry) (ref owner : Nat) (ks : List Nat) (d : Device)
    (hmem : (ref, d) ∈ reg) (hnd : (reg.map Prod.fst).Nodup)
    (hown : d.owningSession = owner) :
    reg.filter (fun p => !((ref :: ks).contains p.1 && p.2.owningSession == owner))
      = (le_ref_DeleteRef reg ref).filter
          (fun p => !(ks.contains p.1 && p.2.owningSession == owner)) := by
  induction reg with
  | nil => cases hmem
  | cons head tail ih =>
    obtain ⟨r, e⟩ := head
    simp only [List.map_cons, List.nodup_cons] at hnd
    rcases List.mem_cons.mp hmem with hEq | hTail
    · cases hEq
      have hdrop : (!((ref :: ks).contains ref && d.owningSession == owner)) = false := by
        simp [List.contains_cons, hown]
      have habs : ref ∉ tail.map Prod.fst := hnd.1
      simp only [List.filter_cons, hdrop, le_ref_DeleteRef, if_pos rfl]
      exact filter_key_absent tail ref owner ks habs
    · have hne : r ≠ ref := by
        intro hEq
        exact hnd.1 (hEq ▸ List.mem_map_of_mem Prod.fst hTail)
      have hhead : (!((ref :: ks).contains r && e.owningSession == owner))
          = (!(ks.contains r && e.owningSession == owner)) := by
        simp [List.contains_cons, hne]
      have hdel : le_ref_DeleteRef ((r, e) :: tail) ref = (r, e) :: le_ref_DeleteRef tail ref := by
        simp [le_ref_DeleteRef, hne]
      rw [hdel, List.filter_cons, List.filter_cons, hhead, ih hTail hnd.2]

/-- The cleanup loop of `spiService.c`, run over iteration sequence `rem`
against registry `reg`, removes from `reg` exactly the entries of `rem`
owned by the disconnecting session. -/
theorem closeAllLoop_eq_filter (owner : Nat) (rem : List (Nat × Device)) (reg : Registry)
    (hnd : (reg.map Prod.fst).Nodup) (hsub : rem.Sublist reg) :
    closeAllLoop owner rem reg
      = reg.filter (fun p => !((rem.map Prod.fst).contains p.1 && p.2.owningSession == owner)) := by
  induction rem generalizing reg with
  | nil => simp [closeAllLoop]
  | cons head rest ih =>
    obtain ⟨ref, d⟩ := head
    have hmem : (ref, d) ∈ reg := hsub.subset (List.mem_cons_self _ _)
    by_cases hown : d.owningSession = owner
    · have hlook : le_ref_Lookup reg ref = some d :=
        le_ref_Lookup_eq_some_of_mem reg ref d hmem hnd
      have hclose : (spi_Close reg ref owner 0).registry = le_ref_DeleteRef reg ref := by
        simp [spi_Close, hlook, hown]
      have hstep : closeAllLoop owner ((ref, d) :: rest) reg
          = closeAllLoop owner rest (le_ref_DeleteRef reg ref) := by
        simp [closeAllLoop, hown, hclose]
      have hndDel : ((le_ref_DeleteRef reg ref).map Prod.fst).Nodup :=
        ((le_ref_DeleteRef_sublist reg ref).map Prod.fst).nodup hnd
      have hsubDel : rest.Sublist (le_ref_DeleteRef reg ref) :=
        sublist_deleteRef reg rest ref d hsub hnd
      rw [hstep, ih (le_ref_DeleteRef reg ref) hndDel hsubDel, List.map_cons]
      exact (filter_key_owned reg ref owner (rest.map Prod.fst) d hmem hnd hown).symm
    · have hstep : closeAllLoop owner ((ref, d) :: rest) reg = closeAllLoop owner rest reg := by
        simp [closeAllLoop, hown]
      have hsubRest : rest.Sublist reg := (List.sublist_cons_self (ref, d) rest).trans hsub
      rw [hstep, ih reg hnd hsubRest, List.map_cons]
      exact (filter_key_foreign reg ref owner (rest.map Prod.fst) d hmem hnd hown).symm

/-- C2.  First conjunct, the deployed component `spiService.c`: with
distinct safe references, one cleanup pass removes exactly the
disconnecting session's handles — afterwards no live handle of that owner
remains and every handle of any other session is retained.  Last conjunct,
the legacy component `src/unnamed/part_001` at the claim's own scenario
(session 1 owns two handles, session 2 owns one): its cleanup closes only
the first matching handle, because the `do/while` flag is unconditionally
reset to false after the scan, so a second handle of the same owner
survives — the defect the claim rules out. -/
theorem cleanup_session_two_variants (owner : Nat) (reg : Registry) :
    ((reg.map Prod.fst).Nodup →
        closeAllHandlesOwnedByClient owner reg
          = reg.filter (fun p => !(p.2.owningSession == owner)))
  ∧ ((reg.map Prod.fst).Nodup →
      ∀ p ∈ closeAllHandlesOwnedByClient owner reg, p.2.owningSession ≠ owner)
  ∧ ((reg.map Prod.fst).Nodup →
      ∀ p ∈ reg, p.2.owningSession ≠ owner → p ∈ closeAllHandlesOwnedByClient owner reg)
  ∧ closeAllHandlesOwnedByClientV1 1
      [{ id := 10, fd := 3, inode := 100, owningSession := 1 },
       { id := 11, fd := 4, inode := 101, owningSession := 1 },
       { id := 12, fd := 5, inode := 102, owningSession := 2 }]
      = [{ id := 11, fd := 4, inode := 101, owningSession := 1 },
         { id := 12, fd := 5, inode := 102, owningSession := 2 }] := by
  have hmain : (reg.map Prod.fst).Nodup →
      closeAllHandlesOwnedByClient owner reg
        = reg.filter (fun p => !(p.2.owningSession == owner)) := by
    intro hnd
    unfold closeAllHandlesOwnedByClient
    rw [closeAllLoop_eq_filter owner reg reg hnd (List.Sublist.refl reg)]
    refine List.filter_congr ?_
    intro p hp
    have : (reg.map Prod.fst).contains p.1 = true :=
      List.elem_eq_true_of_mem (List.mem_map_of_mem Prod.fst hp)
    rw [this, Bool.true_and]
  refine ⟨hmain, ?_, ?_, by decide⟩
  · intro hnd p hp
    rw [hmain hnd] at hp
    have := (List.mem_filter.mp hp).2
    simpa using this
  · intro hnd p hp hown
    rw [hmain hnd]
    refine List.mem_filter.mpr ⟨hp, ?_⟩
    simpa using hown

/-- C2 witness: the deployed component's cleanup applied at the claim's
scenario — session 1 opened handles 10 and 11, session 2 opened handle 12,
session 1 disconnects, and exactly handle 12 remains. -/
theorem cleanup_session_witness :
    closeAllHandlesOwnedByClient 1
      [(10, { fd := 3, inode := 100, owningSession := 1 }),
       (11, { fd := 4, inode := 101, owningSession := 1 }),
       (12, { fd := 5, inode := 102, owningSession := 2 })]
      = [(12, { fd := 5, inode := 102, owningSession := 2 })] := by
  have h := (cleanup_session_two_variants 1
    [(10, { fd := 3, inode := 100, owningSession := 1 }),
     (11, { fd := 4, inode := 101, owningSession := 1 }),
     (12, { fd := 5, inode := 102, owningSession := 2 })]).1 (by decide)
  rw [h]
  decide

/-! ## C3, C4, C5: ownership guards, close semantics, full-duplex guard -/

/-- A registry holding one handle, safe reference 7, owned by session 1. -/
def oneHandleReg : Registry := [(7, { fd := 3, inode := 100, owningSession := 1 })]

/-- C3 evaluation.  Session 2 operates on the handle owned by session 1.
Every operation kills the offending session, but `spi_Configure`,
`spi_Write_Hd` and `spi_Read_Hd` lack a `return` after `LE_KILL_CLIENT`,
so they still perform the device operation on the foreign caller's behalf
(and the two transfers even hand back the transfer's result value); only
`spi_WriteRead_Hd`, `spi_WriteRead_Fd` and `spi_Close` stop without
touching the device. -/
theorem ownership_kill_still_performs_op :
    spi_Configure oneHandleReg 7 2
      = { killed := true, configurePerformed := true }
  ∧ spi_Write_Hd oneHandleReg 7 2 .ok
      = { killed := true, transferIssued := true, result := .ok }
  ∧ spi_Read_Hd oneHandleReg 7 2 .ok
      = { killed := true, transferIssued := true, result := .ok }
  ∧ spi_WriteRead_Hd oneHandleReg 7 2 .ok
      = { killed := true, transferIssued := false, result := .fault }
  ∧ spi_WriteRead_Fd oneHandleReg 7 2 4 4 .ok
      = { killed := true, transferIssued := false, transferLength := none, result := .fault }
  ∧ spi_Close oneHandleReg 7 2 0
      = { killed := true, registry := oneHandleReg, fdClosed := none
          freed := false, warned := false } := by
  decide

/-- C4: `spi_Close` semantics.  The caller is killed exactly when the
handle is absent from the registry or owned by another session; a killed
call leaves the registry untouched, closes no descriptor and frees
nothing; an owner's call on a live handle is not killed, deletes the
reference, passes exactly the handle's descriptor to `close` and frees the
object, with a nonzero `close` result only raising the log warning; and
the outcome apart from that warning is independent of what `close`
returns. -/
theorem close_semantics (reg : Registry) (handle caller : Nat) (closeResult : Int) :
    ((spi_Close reg handle caller closeResult).killed = true
      ↔ le_ref_Lookup reg handle = none
        ∨ ∃ d, le_ref_Lookup reg handle = some d ∧ d.owningSession ≠ caller)
  ∧ ((spi_Close reg handle caller closeResult).killed = true →
        (spi_Close reg handle caller closeResult).registry = reg
      ∧ (spi_Close reg handle caller closeResult).fdClosed = none
      ∧ (spi_Close reg handle caller closeResult).freed = false)
  ∧ (∀ d, le_ref_Lookup reg handle = some d → d.owningSession = caller →
        (spi_Close reg handle caller closeResult).killed = false
      ∧ (spi_Close reg handle caller closeResult).registry = le_ref_DeleteRef reg handle
      ∧ (spi_Close reg handle caller closeResult).fdClosed = some d.fd
      ∧ (spi_Close reg handle caller closeResult).freed = true
      ∧ ((spi_Close reg handle caller closeResult).warned = true ↔ closeResult ≠ 0))
  ∧ ((spi_Close reg handle caller closeResult).killed = (spi_Close reg handle caller 0).killed
      ∧ (spi_Close reg handle caller closeResult).registry
          = (spi_Close reg handle caller 0).registry
      ∧ (spi_Close reg handle caller closeResult).fdClosed
          = (spi_Close reg handle caller 0).fdClosed
      ∧ (spi_Close reg handle caller closeResult).freed
          = (spi_Close reg handle caller 0).freed) := by
  unfold spi_Close
  rcases hlook : le_ref_Lookup reg handle with _ | device
  · simp
  · by_cases hown : device.owningSession = caller
    · simp [hown]
    · simp [hown]

/-- C4 witness: an owner's close of a live handle whose descriptor release
fails (`close` returns -1), hypotheses discharged: not killed, reference
deleted, descriptor 3 released, object freed, warning logged. -/
theorem close_semantics_witness :
    (spi_Close oneHandleReg 7 1 (-1)).killed = false
  ∧ (spi_Close oneHandleReg 7 1 (-1)).registry = le_ref_DeleteRef oneHandleReg 7
  ∧ (spi_Close oneHandleReg 7 1 (-1)).fdClosed
      = some ({ fd := 3, inode := 100, owningSession := 1 } : Device).fd
  ∧ (spi_Close oneHandleReg 7 1 (-1)).freed = true
  ∧ ((spi_Close oneHandleReg 7 1 (-1)).warned = true ↔ (-1 : Int) ≠ 0) :=
  (close_semantics oneHandleReg 7 1 (-1)).2.2.1
    { fd := 3, inode := 100, owningSession := 1 } (by decide) rfl

/-- C5 evaluation.  Session 1 calls `spi_WriteRead_Fd` on its own handle
with write length 4 and read capacity 2: the buffer-size guard fires and
kills the caller, but `LE_KILL_CLIENT` is not followed by a `return`, so
the full-duplex transfer is still issued, over the 4 write cycles.  With
read capacity 4 the call is not killed and the transfer runs over the 4
write cycles, as the claim's second half says. -/
theorem writeread_fd_guard_not_enforced :
    spi_WriteRead_Fd oneHandleReg 7 1 4 2 .ok
      = { killed := true, transferIssued := true, transferLength := some 4, result := .ok }
  ∧ spi_WriteRead_Fd oneHandleReg 7 1 4 4 .ok
      = { killed := false, transferIssued := true, transferLength := some 4, result := .ok } := by
  decide

/-! ## C7, C8, C9: the transfer library -/

/-- C7 counterexample.  A transfer count of 0 is non-negative, yet both
implemented library operations map it to `LE_FAULT`: the code tests
`TransferResult < 1`, not `< 0`, so "any non-negative count is success" is
false at 0. -/
theorem transfer_zero_count_fault :
    (spiLib_Write [1, 2, 3] 0).2 = .fault
  ∧ (spiLib_WriteRead [1, 2, 3] 5 0).2 = .fault
  ∧ (0 : Int) ≥ 0
  ∧ LeResult.fault ≠ LeResult.ok := by
  decide

/-- C7 as amended.  The two operations implemented in the repository store
the ioctl count in an `int8_t`, so they succeed exactly when the count
truncated to a signed 8-bit value is at least 1 and fault otherwise (zero
faults, and so do positive counts that truncate to 0 or below, such as
256); the two operations modelled from the spec succeed exactly on a
positive count and fault on zero or negative. -/
theorem transfer_result_mapping_amended (writeData : List Nat) (readDataLength : Nat) (r : Int) :
    ((spiLib_WriteRead writeData readDataLength r).2 = .ok ↔ 1 ≤ int8Trunc r)
  ∧ ((spiLib_WriteRead writeData readDataLength r).2 = .fault ↔ int8Trunc r < 1)
  ∧ ((spiLib_Write writeData r).2 = .ok ↔ 1 ≤ int8Trunc r)
  ∧ ((spiLib_Write writeData r).2 = .fault ↔ int8Trunc r < 1)
  ∧ ((spiLib_Read_Hd_model readDataLength r).2 = .ok ↔ 1 ≤ r)
  ∧ ((spiLib_Read_Hd_model readDataLength r).2 = .fault ↔ r ≤ 0)
  ∧ ((spiLib_WriteRead_Fd_model writeData r).2 = .ok ↔ 1 ≤ r)
  ∧ ((spiLib_WriteRead_Fd_model writeData r).2 = .fault ↔ r ≤ 0) := by
  by_cases h : int8Trunc r < 1
  · by_cases h2 : r ≤ 0
    · simp [spiLib_WriteRead, spiLib_Write, spiLib_Read_Hd_model, spiLib_WriteRead_Fd_model,
        h, h2]
      omega
    · simp [spiLib_WriteRead, spiLib_Write, spiLib_Read_Hd_model, spiLib_WriteRead_Fd_model,
        h, h2]
      omega
  · by_cases h2 : r ≤ 0
    · simp [spiLib_WriteRead, spiLib_Write, spiLib_Read_Hd_model, spiLib_WriteRead_Fd_model,
        h, h2]
      omega
    · simp [spiLib_WriteRead, spiLib_Write, spiLib_Read_Hd_model, spiLib_WriteRead_Fd_model,
        h, h2]
      omega

/-- C7 witness: the amended mapping at the concrete count 256, which is
positive yet truncates to 0, so the implemented write faults. -/
theorem transfer_result_mapping_witness :
    (spiLib_Write [1, 2, 3] 256).2 = .ok ↔ 1 ≤ int8Trunc 256 :=
  (transfer_result_mapping_amended [1, 2, 3] 5 256).2.2.1

/-- C8: `spiLib_WriteRead` always fills one ioctl message of exactly two
back-to-back segments — the first transmits the whole write buffer with no
receive buffer attached, the second receives the (independently sized)
read length with no transmit buffer — so the write bytes are clocked out
before any read byte is clocked in.  The second conjunct is the spec's
write-3 / read-5 instance. -/
theorem writeread_hd_two_segments (writeData : List Nat) (readDataLength : Nat) (r : Int) :
    (spiLib_WriteRead writeData readDataLength r).1
      = [{ txBuf := some writeData, rxBufSet := false, len := writeData.length, csChange := 0 },
         { txBuf := none, rxBufSet := true, len := readDataLength, csChange := 0 }]
  ∧ (spiLib_WriteRead [1, 2, 3] 5 1).1
      = [{ txBuf := some [1, 2, 3], rxBufSet := false, len := 3, csChange := 0 },
         { txBuf := none, rxBufSet := true, len := 5, csChange := 0 }] := by
  exact ⟨rfl, by decide⟩

/-- C9: `spiLib_Configure` on a working device (all eight ioctls return
non-negative) returns normally — it never reports failure to its caller —
and the read-back values equal the written parameters, from any prior
device state; hence two calls with identical parameters, each on a working
device, produce identical read-backs.  Any ioctl returning a negative
value at the first failing position aborts the process at exactly that
sub-operation. -/
theorem configure_idempotent (dev dev2 : SpiDevState) (mode : Int) (bits speed : Nat) (msb : Int)
    (ret ret2 : Nat → Int) :
    ((∀ i, i < 8 → 0 ≤ ret i) →
        spiLib_Configure dev mode bits speed msb ret
          = .done { mode := mode, bits := bits, speed := speed, lsb := msb } mode bits speed msb)
  ∧ ((∀ i, i < 8 → 0 ≤ ret i) → (∀ i, i < 8 → 0 ≤ ret2 i) →
        spiLib_Configure dev mode bits speed msb ret
          = spiLib_Configure dev2 mode bits speed msb ret2)
  ∧ (∀ i, i < 8 → ret i < 0 → (∀ j, j < i → 0 ≤ ret j) →
        spiLib_Configure dev mode bits speed msb ret = .fatal i) := by
  have hdone : ∀ (d : SpiDevState) (f : Nat → Int), (∀ i, i < 8 → 0 ≤ f i) →
      spiLib_Configure d mode bits speed msb f
        = .done { mode := mode, bits := bits, speed := speed, lsb := msb } mode bits speed msb := by
    intro d f h
    unfold spiLib_Configure
    rw [if_neg (by have := h 0 (by omega); omega), if_neg (by have := h 1 (by omega); omega),
      if_neg (by have := h 2 (by omega); omega), if_neg (by have := h 3 (by omega); omega),
      if_neg (by have := h 4 (by omega); omega), if_neg (by have := h 5 (by omega); omega),
      if_neg (by have := h 6 (by omega); omega), if_neg (by have := h 7 (by omega); omega)]
  refine ⟨hdone dev ret, ?_, ?_⟩
  · intro h h2
    rw [hdone dev ret h, hdone dev2 ret2 h2]
  · intro i hi hneg hprev
    interval_cases i
    · unfold spiLib_Configure
      rw [if_pos hneg]
    · unfold spiLib_Configure
      rw [if_neg (by have := hprev 0 (by omega); omega), if_pos hneg]
    · unfold spiLib_Configure
      rw [if_neg (by have := hprev 0 (by omega); omega),
        if_neg (by have := hprev 1 (by omega); omega), if_pos hneg]
    · unfold spiLib_Configure
      rw [if_neg (by have := hprev 0 (by omega); omega),
        if_neg (by have := hprev 1 (by omega); omega),
        if_neg (by have := hprev 2 (by omega); omega), if_pos hneg]
    · unfold spiLib_Configure
      rw [if_neg (by have := hprev 0 (by omega); omega),
        if_neg (by have := hprev 1 (by omega); omega),
        if_neg (by have := hprev 2 (by omega); omega),
        if_neg (by have := hprev 3 (by omega); omega), if_pos hneg]
    · unfold spiLib_Configure
      rw [if_neg (by have := hprev 0 (by omega); omega),
        if_neg (by have := hprev 1 (by omega); omega),
        if_neg (by have := hprev 2 (by omega); omega),
        if_neg (by have := hprev 3 (by omega); omega),
        if_neg (by have := hprev 4 (by omega); omega), if_pos hneg]
    · unfold spiLib_Configure
      rw [if_neg (by have := hprev 0 (by omega); omega),
        if_neg (by have := hprev 1 (by omega); omega),
        if_neg (by have := hprev 2 (by omega); omega),
        if_neg (by have := hprev 3 (by omega); omega),
        if_neg (by have := hprev 4 (by omega); omega),
        if_neg (by have := hprev 5 (by omega); omega), if_pos hneg]
    · unfold spiLib_Configure
      rw [if_neg (by have := hprev 0 (by omega); omega),
        if_neg (by have := hprev 1 (by omega); omega),
        if_neg (by have := hprev 2 (by omega); omega),
        if_neg (by have := hprev 3 (by omega); omega),
        if_neg (by have := hprev 4 (by omega); omega),
        if_neg (by have := hprev 5 (by omega); omega),
        if_neg (by have := hprev 6 (by omega); omega), if_pos hneg]

/-- C9 witness: a concrete working run — mode 3, 8 bits per word,
960 kHz, LSB-first flag 1, every ioctl returning 0 — ends with the
read-backs equal to the written parameters, hypotheses discharged. -/
theorem configure_idempotent_witness :
    spiLib_Configure { mode := 0, bits := 0, speed := 0, lsb := 0 } 3 8 960000 1 (fun _ => 0)
      = .done { mode := 3, bits := 8, speed := 960000, lsb := 1 } 3 8 960000 1 :=
  (configure_idempotent { mode := 0, bits := 0, speed := 0, lsb := 0 }
    { mode := 0, bits := 0, speed := 0, lsb := 0 } 3 8 960000 1 (fun _ => 0) (fun _ => 0)).1
    (fun _ _ => Int.le_refl 0)

end SpiService
